import Mathlib

/-!
Verification of the loan/EMI amortization tracker of the bill-reminder
backend (`backend/models.py`, `backend/loans.py`).

Shallow embedding conventions:
* Python `float` money fields are embedded as `ℚ`; Python `int` fields as `ℤ`.
* `datetime` values are embedded as a calendar date `DateTime` (year, month,
  day); `dateutil.relativedelta(months=n)` is embedded as `addMonths`, the
  calendar-aware month addition that clamps the day-of-month to the target
  month's length, exactly as `relativedelta` does.
* Nullable columns are `Option`; the `payment_history` column, which the
  source stores as JSON text and re-parses on every payment, is embedded as
  the list of records that text encodes (the round-trip is lossless).
* JSON request bodies are embedded as records of `Option`-valued fields whose
  values are already parsed numbers; Python truthiness of a number is
  `(· ≠ 0)` and of an absent field is false.
* HTTP-level failures of the routes are embedded as `Except` errors:
  the 400 "Loan details already exist" response is `CreateError.conflict`,
  the 400 "Missing required fields" response is `CreateError.validation`,
  and the 400 "This loan is already completed" response is
  `PaymentError.invalidState`.  `datetime.utcnow()` is passed in as an
  explicit `now` parameter.  Database identity columns, `created_at` /
  `updated_at` timestamps and the logging hooks are observability glue and
  are not part of the embedded state.
-/

/-- A calendar date, standing in for Python `datetime` (the time-of-day part
plays no role in any month arithmetic of the source). -/
structure DateTime where
  year : Int
  month : Int
  day : Int
deriving DecidableEq, Repr

/-- Gregorian leap-year test, as used by `dateutil`'s calendar arithmetic. -/
def isLeapYear (y : Int) : Bool :=
  (y % 4 == 0 && y % 100 != 0) || y % 400 == 0

/-- Number of days of month `m` of year `y` (for `m ∈ [1,12]`). -/
def daysInMonth (y m : Int) : Int :=
  if m = 2 then (if isLeapYear y then 29 else 28)
  else if m = 4 ∨ m = 6 ∨ m = 9 ∨ m = 11 then 30
  else 31

/-- `d + relativedelta(months := n)`: calendar month addition with the
day-of-month clamped to the length of the target month. -/
def addMonths (d : DateTime) (n : Int) : DateTime :=
  let t : Int := d.year * 12 + (d.month - 1) + n
  let y : Int := t.fdiv 12
  let m : Int := t.emod 12 + 1
  { year := y, month := m, day := min d.day (daysInMonth y m) }

/-- One entry of `LoanDetails.payment_history`
(`models.py:227-232`, the dict appended by `make_payment`). -/
structure PaymentRecord where
  installment_no : Int
  amount : ℚ
  date : DateTime
  remaining : ℚ
deriving DecidableEq, Repr

/-- The `LoanDetails` model (`models.py:162-190`), restricted to the columns
the tracker logic reads or writes. -/
structure LoanDetails where
  total_amount : ℚ
  monthly_payment : ℚ
  interest_rate : ℚ
  total_installments : Int
  installments_paid : Int
  total_paid : ℚ
  amount_remaining : Option ℚ
  loan_start_date : DateTime
  expected_completion_date : Option DateTime
  last_payment_date : Option DateTime
  next_payment_date : Option DateTime
  payment_history : List PaymentRecord
  is_active : Bool
  notes : Option String
deriving DecidableEq, Repr

/-- The `Bill` model (`models.py:42-58`), restricted to the columns read or
written by the loan routes. -/
structure Bill where
  user_id : String
  name : String
  amount : ℚ
  due_date : DateTime
  category : String
  frequency : String
  is_paid : Bool
  notes : Option String
  enable_whatsapp : Bool
  enable_call : Bool
  enable_sms : Bool
  enable_local_notification : Bool
deriving DecidableEq, Repr

/-- `LoanDetails.calculate_loan_details` (`models.py:197-211`), the spec's
`recompute`.  The Python guard `if self.total_amount and self.monthly_payment`
is number truthiness, i.e. both fields nonzero; `loan_start_date` is a
non-nullable column always supplied by the routes, so the inner
`if self.loan_start_date` guard is always true here. -/
def calculate_loan_details (l : LoanDetails) : LoanDetails :=
  if l.total_amount ≠ 0 ∧ l.monthly_payment ≠ 0 then
    let l1 : LoanDetails :=
      { l with amount_remaining := some (l.total_amount - l.total_paid) }
    let ecd : Option DateTime :=
      some (addMonths l1.loan_start_date l1.total_installments)
    let l2 : LoanDetails :=
      if l1.expected_completion_date = none ∧ l1.total_installments ≠ 0 then
        { l1 with expected_completion_date := ecd }
      else l1
    let npd : Option DateTime :=
      some (addMonths l2.loan_start_date (l2.installments_paid + 1))
    { l2 with next_payment_date := npd }
  else l

/-- `amount or self.monthly_payment` (`models.py:218`): Python `or` takes the
default whenever `amount` is falsy, i.e. `None` or `0`. -/
def paymentAmount (amount : Option ℚ) (monthly : ℚ) : ℚ :=
  match amount with
  | none => monthly
  | some a => if a = 0 then monthly else a

/-- The dict returned by `make_payment` (`models.py:253-258`). -/
structure PaymentResult where
  installment_no : Int
  amount_paid : ℚ
  amount_remaining : ℚ
  is_completed : Bool
deriving DecidableEq, Repr

/-- `LoanDetails.make_payment` (`models.py:213-258`): returns the updated
loan together with the result dict. -/
def make_payment (l : LoanDetails) (amount : Option ℚ) (now : DateTime) :
    LoanDetails × PaymentResult :=
  let payment_amount := paymentAmount amount l.monthly_payment
  let installments_paid := l.installments_paid + 1
  let total_paid := l.total_paid + payment_amount
  let amount_remaining := l.total_amount - total_paid
  let record : PaymentRecord :=
    { installment_no := installments_paid, amount := payment_amount,
      date := now, remaining := amount_remaining }
  let next_payment_date := addMonths l.loan_start_date (installments_paid + 1)
  let is_active :=
    if installments_paid ≥ l.total_installments ∨ amount_remaining ≤ 0 then
      false
    else l.is_active
  ({ l with
      installments_paid := installments_paid
      total_paid := total_paid
      amount_remaining := some amount_remaining
      last_payment_date := some now
      payment_history := l.payment_history ++ [record]
      next_payment_date := some next_payment_date
      is_active := is_active },
   { installment_no := installments_paid
     amount_paid := payment_amount
     amount_remaining := amount_remaining
     is_completed := !is_active })

/-- Failure of the payment route. -/
inductive PaymentError
  /-- 400 "This loan is already completed" (`loans.py:162-164`), the spec's
  InvalidStateError. -/
  | invalidState
deriving DecidableEq, Repr

/-- The loan-state part of the `record_loan_payment` route
(`loans.py:146-171`), the spec's `record_payment`: reject a completed loan
before touching it, otherwise delegate to `make_payment`. -/
def record_payment (l : LoanDetails) (amount : Option ℚ) (now : DateTime) :
    Except PaymentError (LoanDetails × PaymentResult) :=
  if l.is_active = false then .error .invalidState
  else .ok (make_payment l amount now)

/-- The JSON body accepted by the loan-creation route (`loans.py:36-62`),
with numeric values already parsed. -/
structure LoanInput where
  total_amount : Option ℚ
  monthly_payment : Option ℚ
  interest_rate : Option ℚ
  total_installments : Option Int
  installments_paid : Option Int
  total_paid : Option ℚ
  loan_start_date : Option DateTime
  notes : Option String
deriving DecidableEq, Repr

/-- A required field is "missing" when absent from the body or falsy
(`loans.py:41`: `field not in data or not data[field]`; for a parsed number,
falsy means zero). -/
def fieldMissing (v : Option ℚ) : Bool :=
  match v with
  | none => true
  | some a => a == 0

/-- Same truthiness test for the integer field `total_installments`. -/
def intFieldMissing (v : Option Int) : Bool :=
  match v with
  | none => true
  | some a => a == 0

/-- The list built at `loans.py:40-41`. -/
def missingFields (d : LoanInput) : List String :=
  (if fieldMissing d.total_amount then ["total_amount"] else []) ++
  (if fieldMissing d.monthly_payment then ["monthly_payment"] else []) ++
  (if intFieldMissing d.total_installments then ["total_installments"] else [])

/-- Failure of the loan-creation route. -/
inductive CreateError
  /-- 400 "Loan details already exist for this bill" (`loans.py:31-34`), the
  spec's ConflictError. -/
  | conflict
  /-- 400 "Missing required fields: ..." (`loans.py:40-44`), the spec's
  ValidationError. -/
  | validation (missing : List String)
deriving DecidableEq, Repr

/-- The `create_loan_details` route (`loans.py:19-73`), the spec's
`initialize`, after bill-ownership lookup: `existing_loan` is the result of
the `LoanDetails.query.filter_by(bill_id=...)` 1:1 check.  The constructor
runs `calculate_loan_details` (`models.py:192-194`) and the route runs it
again (`loans.py:66`). -/
def create_loan_details (existing_loan : Option LoanDetails) (d : LoanInput)
    (now : DateTime) : Except CreateError LoanDetails :=
  if existing_loan.isSome then .error .conflict
  else
    let missing := missingFields d
    if missing ≠ [] then .error (.validation missing)
    else
      -- validation guarantees the three required fields are present, so the
      -- `getD` defaults below are never taken for them
      let l0 : LoanDetails :=
        { total_amount := d.total_amount.getD 0
          monthly_payment := d.monthly_payment.getD 0
          interest_rate := d.interest_rate.getD 0
          total_installments := d.total_installments.getD 0
          installments_paid := d.installments_paid.getD 0
          total_paid := d.total_paid.getD 0
          amount_remaining := none
          loan_start_date := d.loan_start_date.getD now
          expected_completion_date := none
          last_payment_date := none
          next_payment_date := none
          payment_history := []
          is_active := true
          notes := d.notes }
      .ok (calculate_loan_details (calculate_loan_details l0))

/-- The `Bill.query.filter_by(user_id=..., name=..., due_date=...)` lookup of
`loans.py:181-185`. -/
def find_next_bill (store : List Bill) (uid name : String) (due : DateTime) :
    Option Bill :=
  store.find? (fun b => b.user_id == uid && b.name == name && b.due_date == due)

/-- The successor `Bill` constructed at `loans.py:189-201`, carrying the
loan's monthly payment and the parent bill's category, frequency and
notification preferences. -/
def make_next_bill (uid : String) (bill : Bill) (l : LoanDetails)
    (next_due_date : DateTime) : Bill :=
  { user_id := uid
    name := bill.name
    amount := l.monthly_payment
    due_date := next_due_date
    category := bill.category
    frequency := bill.frequency
    is_paid := false
    notes := some s!"EMI #{l.installments_paid + 1} of {l.total_installments}"
    enable_whatsapp := bill.enable_whatsapp
    enable_call := bill.enable_call
    enable_sms := bill.enable_sms
    enable_local_notification := bill.enable_local_notification }

/-- The successor-bill block of `record_loan_payment` (`loans.py:176-203`),
the spec's `advance_recurring_bill`: acting on the store of bills, it returns
the updated store and the newly created successor bill, if any. -/
def advance_recurring_bill (store : List Bill) (uid : String) (bill : Bill)
    (l : LoanDetails) : List Bill × Option Bill :=
  if l.is_active = true ∧ bill.frequency = "monthly" then
    let next_due_date := addMonths bill.due_date 1
    match find_next_bill store uid bill.name next_due_date with
    | some _ => (store, none)
    | none =>
        let next_bill : Bill := make_next_bill uid bill l next_due_date
        (store ++ [next_bill], some next_bill)
  else (store, none)

/-! ## Concrete fixtures used by witnesses and counterexamples -/

/-- 2025-01-01, the loan start date of the spec's worked example. -/
def jan2025 : DateTime := ⟨2025, 1, 1⟩

/-- The fresh 12-installment loan of the spec's worked example
(`total_amount = 1200`, `monthly_payment = 100`, started 2025-01-01), with
the derived fields exactly as `create_loan_details` produces them. -/
def exampleLoan : LoanDetails :=
  { total_amount := 1200
    monthly_payment := 100
    interest_rate := 0
    total_installments := 12
    installments_paid := 0
    total_paid := 0
    amount_remaining := some 1200
    loan_start_date := jan2025
    expected_completion_date := some ⟨2026, 1, 1⟩
    last_payment_date := none
    next_payment_date := some ⟨2025, 2, 1⟩
    payment_history := []
    is_active := true
    notes := none }

/-- A completed loan (`is_active = false`), for exercising the
rejected-payment path. -/
def completedLoan : LoanDetails :=
  { exampleLoan with
      installments_paid := 12
      total_paid := 1200
      amount_remaining := some 0
      is_active := false }

/-- A bill carrying the example loan. -/
def exampleBill : Bill :=
  { user_id := "u1"
    name := "Car loan"
    amount := 100
    due_date := ⟨2025, 2, 1⟩
    category := "loan"
    frequency := "monthly"
    is_paid := false
    notes := none
    enable_whatsapp := true
    enable_call := false
    enable_sms := false
    enable_local_notification := true }

/-- A creation request with a negative principal: every required field is
present and truthy, so the route's validation accepts it. -/
def negExampleInput : LoanInput :=
  { total_amount := some (-5)
    monthly_payment := some 100
    interest_rate := none
    total_installments := some 12
    installments_paid := none
    total_paid := none
    loan_start_date := some jan2025
    notes := none }

/-- A creation request supplying `installments_paid = 13` against
`total_installments = 12`. -/
def outOfRangeInput : LoanInput :=
  { total_amount := some 1200
    monthly_payment := some 100
    interest_rate := none
    total_installments := some 12
    installments_paid := some 13
    total_paid := none
    loan_start_date := some jan2025
    notes := none }

/-- A creation request whose `total_paid` already exceeds `total_amount`. -/
def overpaidInput : LoanInput :=
  { total_amount := some 100
    monthly_payment := some 10
    interest_rate := none
    total_installments := some 12
    installments_paid := none
    total_paid := some 500
    loan_start_date := some jan2025
    notes := none }

/-- Joint state of one loan and the bill store it lives next to. -/
structure SysState where
  loan : LoanDetails
  bills : List Bill
deriving Repr

/-- The operations of the tracker that can run after creation: the payment
route, the recompute performed by the update route, and the successor-bill
block. -/
inductive LoanOp
  | payment (amt : Option ℚ) (now : DateTime)
  | recompute
  | advanceBill (uid : String) (bill : Bill)

/-- One operation applied to the joint state.  A rejected payment leaves the
state untouched (the route returns 400 before mutating); the successor-bill
block reads the loan but never writes it. -/
def applyOp (s : SysState) (op : LoanOp) : SysState :=
  match op with
  | .payment amt now =>
      match record_payment s.loan amt now with
      | .ok (l', _) => { s with loan := l' }
      | .error _ => s
  | .recompute => { s with loan := calculate_loan_details s.loan }
  | .advanceBill uid bill =>
      { s with bills := (advance_recurring_bill s.bills uid bill s.loan).1 }

/-- A whole sequence of operations. -/
def applyOps (s : SysState) (ops : List LoanOp) : SysState :=
  ops.foldl applyOp s

/-! ## Claim C6 -/

/-- C6: `record_payment` on a loan with `is_active = false` fails with
InvalidStateError ("This loan is already completed").  The route returns the
error before calling `make_payment`, so no field of the loan is mutated: in
the embedding the error result carries no successor state, and the stored
loan stays exactly as it was. -/
theorem record_payment_rejects_completed (l : LoanDetails) (amt : Option ℚ)
    (now : DateTime) (h : l.is_active = false) :
    record_payment l amt now = .error .invalidState := by
  simp [record_payment, h]

/-- Witness for C6: the concrete completed loan is rejected. -/
theorem record_payment_rejects_completed_witness :
    record_payment completedLoan none jan2025 = .error .invalidState :=
  record_payment_rejects_completed completedLoan none jan2025 rfl

/-! ## Claim C10 -/

/-- C10: passing an explicit amount of `0` (the only falsy numeric value)
behaves exactly like omitting the amount: the recorded payment amount is
`monthly_payment` and `total_paid` grows by `monthly_payment`; since the
data model requires `monthly_payment > 0`, no zero-amount payment can be
recorded this way. -/
theorem make_payment_zero_defaults (l : LoanDetails) (now : DateTime) :
    make_payment l (some 0) now = make_payment l none now ∧
    (make_payment l (some 0) now).2.amount_paid = l.monthly_payment ∧
    (make_payment l (some 0) now).1.total_paid = l.total_paid + l.monthly_payment ∧
    (0 < l.monthly_payment → (make_payment l (some 0) now).2.amount_paid ≠ 0) := by
  refine ⟨rfl, rfl, rfl, fun hpos => ?_⟩
  simpa [make_payment, paymentAmount] using ne_of_gt hpos

/-- Witness for C10 at the example loan: the hypothesis `0 < 100` holds and
the recorded amount is nonzero. -/
theorem make_payment_zero_defaults_witness :
    (make_payment exampleLoan (some 0) jan2025).2.amount_paid ≠ 0 :=
  (make_payment_zero_defaults exampleLoan jan2025).2.2.2 (by norm_num [exampleLoan])

/-! ## Claim C1 -/

/-- Counterexample to C1 as stated: on the example active loan
(`monthly_payment = 100`), `record_payment` with the explicitly passed
amount `0` does not use that amount — the Python default
`amount or self.monthly_payment` treats `0` as falsy, so the recorded
payment amount is `100`, not `0`. -/
theorem record_payment_explicit_zero_ignored :
    (make_payment exampleLoan (some 0) jan2025).2.amount_paid ≠ 0 := by
  decide

/-- C1 (amended): for every active loan, `record_payment` with an omitted
amount uses `loan.monthly_payment`, and with an explicitly passed **nonzero**
amount uses exactly that amount (a zero amount falls back to
`monthly_payment`); it then increments `installments_paid` by 1, increases
`total_paid` by the payment amount, sets `amount_remaining` to
`total_amount − total_paid`, sets `last_payment_date`, appends exactly one
record `{installment_no, amount, date, remaining}` to `payment_history`,
sets `next_payment_date` to `loan_start_date + (installments_paid + 1)`
months, and returns `{installment_no, amount_paid, amount_remaining,
is_completed}`. -/
theorem record_payment_effects (l : LoanDetails) (amt : Option ℚ)
    (now : DateTime) (l' : LoanDetails) (r : PaymentResult)
    (h : record_payment l amt now = .ok (l', r)) :
    (amt = none → r.amount_paid = l.monthly_payment) ∧
    (∀ a : ℚ, amt = some a → a ≠ 0 → r.amount_paid = a) ∧
    l'.installments_paid = l.installments_paid + 1 ∧
    l'.total_paid = l.total_paid + r.amount_paid ∧
    l'.amount_remaining = some (l.total_amount - l'.total_paid) ∧
    l'.last_payment_date = some now ∧
    l'.payment_history = l.payment_history ++
      [{ installment_no := l'.installments_paid, amount := r.amount_paid,
         date := now, remaining := l.total_amount - l'.total_paid }] ∧
    l'.next_payment_date =
      some (addMonths l.loan_start_date (l'.installments_paid + 1)) ∧
    r.installment_no = l'.installments_paid ∧
    r.amount_remaining = l.total_amount - l'.total_paid ∧
    r.is_completed = !l'.is_active := by
  rw [record_payment] at h
  split at h
  · simp at h
  · rw [Except.ok.injEq] at h
    have hl : l' = (make_payment l amt now).1 := by rw [h]
    have hr : r = (make_payment l amt now).2 := by rw [h]
    subst hl hr
    refine ⟨fun hn => by simp [make_payment, paymentAmount, hn],
      fun a ha hne => by simp [make_payment, paymentAmount, ha, hne],
      rfl, rfl, rfl, rfl, rfl, rfl, rfl, rfl, rfl⟩

/-- Witness for C1 (amended): paying an explicit nonzero amount `50` on the
example loan records exactly `50`. -/
theorem record_payment_effects_witness :
    (make_payment exampleLoan (some 50) jan2025).2.amount_paid = 50 :=
  (record_payment_effects exampleLoan (some 50) jan2025
      (make_payment exampleLoan (some 50) jan2025).1
      (make_payment exampleLoan (some 50) jan2025).2 rfl).2.1 50 rfl
    (by norm_num)

/-! ## Claim C2 -/

/-- C2: after every `record_payment` call, the loan is inactive iff
`installments_paid ≥ total_installments` or `amount_remaining ≤ 0`; and a
single `record_payment(amount = 1200)` on the fresh 12-installment loan of
`total_amount = 1200` yields `installments_paid = 1`,
`amount_remaining = 0` and `is_active = false` (early completion by
overpayment). -/
theorem record_payment_completion_iff :
    (∀ (l : LoanDetails) (amt : Option ℚ) (now : DateTime)
        (l' : LoanDetails) (r : PaymentResult),
        record_payment l amt now = .ok (l', r) →
        ∀ q : ℚ, l'.amount_remaining = some q →
        (l'.is_active = false ↔
          l'.total_installments ≤ l'.installments_paid ∨ q ≤ 0)) ∧
    record_payment exampleLoan (some 1200) jan2025 =
      .ok ((make_payment exampleLoan (some 1200) jan2025).1,
           { installment_no := 1, amount_paid := 1200,
             amount_remaining := 0, is_completed := true }) ∧
    (make_payment exampleLoan (some 1200) jan2025).1.installments_paid = 1 ∧
    (make_payment exampleLoan (some 1200) jan2025).1.amount_remaining = some 0 ∧
    (make_payment exampleLoan (some 1200) jan2025).1.is_active = false := by
  refine ⟨?_, ?_, ?_, ?_, ?_⟩
  · intro l amt now l' r h q hq
    rw [record_payment] at h
    split at h
    · simp at h
    · rename_i hactive
      rw [Bool.not_eq_false] at hactive
      rw [Except.ok.injEq] at h
      have hl : l' = (make_payment l amt now).1 := by rw [h]
      subst hl
      rw [make_payment] at hq ⊢
      simp only [Option.some.injEq] at hq
      subst hq
      simp only [ge_iff_le]
      split
      · rename_i hcond
        simpa using hcond
      · rename_i hcond
        exact iff_of_false (by simp [hactive]) hcond
  · simp [record_payment, make_payment, paymentAmount, exampleLoan]
  · simp [make_payment, exampleLoan]
  · simp [make_payment, paymentAmount, exampleLoan]
  · simp [make_payment, paymentAmount, exampleLoan]

/-- Witness for C2: a default payment of 100 on the example loan leaves it
active, matching the completion equivalence at a concrete input. -/
theorem record_payment_completion_iff_witness :
    ((make_payment exampleLoan (some 100) jan2025).1.is_active = false ↔
      (make_payment exampleLoan (some 100) jan2025).1.total_installments ≤
        (make_payment exampleLoan (some 100) jan2025).1.installments_paid ∨
      (make_payment exampleLoan (some 100) jan2025).2.amount_remaining ≤ 0) :=
  record_payment_completion_iff.1 exampleLoan (some 100) jan2025
    (make_payment exampleLoan (some 100) jan2025).1
    (make_payment exampleLoan (some 100) jan2025).2 rfl
    (make_payment exampleLoan (some 100) jan2025).2.amount_remaining rfl

/-! ## Claim C3 -/

/-- Counterexample to C3 as stated: `create_loan_details` does **not**
reject a negative `total_amount`.  The check at `loans.py:41` is
`field not in data or not data[field]`, i.e. Python truthiness, and `-5` is
truthy, so the request succeeds and stores `total_amount = -5`. -/
theorem create_accepts_negative_amount :
    ∃ l : LoanDetails, create_loan_details none negExampleInput jan2025 = .ok l ∧
      l.total_amount = -5 := by
  refine ⟨_, rfl, ?_⟩
  simp [create_loan_details, calculate_loan_details, missingFields,
    fieldMissing, intFieldMissing, negExampleInput]

/-- `fieldMissing` holds exactly on an absent or zero numeric field. -/
theorem fieldMissing_iff (v : Option ℚ) :
    fieldMissing v = true ↔ v = none ∨ v = some 0 := by
  cases v <;> simp [fieldMissing]

/-- `intFieldMissing` holds exactly on an absent or zero integer field. -/
theorem intFieldMissing_iff (v : Option Int) :
    intFieldMissing v = true ↔ v = none ∨ v = some 0 := by
  cases v <;> simp [intFieldMissing]

/-- The missing-fields list is empty exactly when all three required fields
are present and nonzero. -/
theorem missingFields_eq_nil (d : LoanInput) :
    missingFields d = [] ↔
      ¬(d.total_amount = none ∨ d.total_amount = some 0) ∧
      ¬(d.monthly_payment = none ∨ d.monthly_payment = some 0) ∧
      ¬(d.total_installments = none ∨ d.total_installments = some 0) := by
  rw [← fieldMissing_iff, ← fieldMissing_iff, ← intFieldMissing_iff]
  unfold missingFields
  rcases hta : fieldMissing d.total_amount <;>
    rcases hmp : fieldMissing d.monthly_payment <;>
      rcases hti : intFieldMissing d.total_installments <;> simp

/-- C3 (amended): `create_loan_details` fails with ConflictError exactly when
the Bill already has a Loan, fails with ValidationError exactly when (no
conflict and) one of `total_amount`, `monthly_payment`, `total_installments`
is absent or zero — Python truthiness, so negative values pass validation —
and succeeds exactly when there is no conflict and all three required fields
are present and nonzero. -/
theorem create_loan_details_errors (ex : Option LoanDetails) (d : LoanInput)
    (now : DateTime) :
    (create_loan_details ex d now = .error .conflict ↔ ex ≠ none) ∧
    ((∃ m, create_loan_details ex d now = .error (.validation m)) ↔
      ex = none ∧ (d.total_amount = none ∨ d.total_amount = some 0 ∨
        d.monthly_payment = none ∨ d.monthly_payment = some 0 ∨
        d.total_installments = none ∨ d.total_installments = some 0)) ∧
    ((∃ l, create_loan_details ex d now = .ok l) ↔
      ex = none ∧ d.total_amount ≠ none ∧ d.total_amount ≠ some 0 ∧
        d.monthly_payment ≠ none ∧ d.monthly_payment ≠ some 0 ∧
        d.total_installments ≠ none ∧ d.total_installments ≠ some 0) := by
  cases ex with
  | some l₀ => simp [create_loan_details]
  | none =>
      have hnil := missingFields_eq_nil d
      by_cases hm : missingFields d = []
      · rw [hnil] at hm
        push_neg at hm
        obtain ⟨⟨h1, h2⟩, ⟨h3, h4⟩, h5, h6⟩ := hm
        simp [create_loan_details, missingFields_eq_nil, h1, h2, h3, h4, h5, h6]
      · have hm' := hm
        rw [hnil] at hm'
        push_neg at hm'
        have hcreate : create_loan_details none d now =
            .error (.validation (missingFields d)) := by
          simp [create_loan_details, hm]
        constructor
        · simp [create_loan_details, hm]
        constructor
        · constructor
          · intro _
            refine ⟨rfl, ?_⟩
            by_contra hc
            push_neg at hc
            obtain ⟨c1, c2, c3, c4, c5, c6⟩ := hc
            exact hm (hnil.mpr ⟨by simp [c1, c2], by simp [c3, c4], by simp [c5, c6]⟩)
          · intro _
            exact ⟨missingFields d, hcreate⟩
        · simp [create_loan_details, hm]
          intro h1 h2 h3 h4 h5
          rcases hm' ⟨h1, h2⟩ ⟨h3, h4⟩ with h | h
          · exact absurd h h5
          · exact h

/-! ## Claim C4 -/

/-- Counterexample to C4 as stated: `create_loan_details` performs no range
check on `installments_paid` (`loans.py:59` stores
`int(data.get('installments_paid', 0))` unvalidated), so a loan with
`installments_paid = 13 > total_installments = 12` is created successfully,
violating the claimed invariant already at initialization. -/
theorem create_accepts_out_of_range_installments :
    ∃ l : LoanDetails, create_loan_details none outOfRangeInput jan2025 = .ok l ∧
      l.installments_paid = 13 ∧ l.total_installments = 12 ∧
      l.is_active = true := by
  refine ⟨_, rfl, ?_, ?_, ?_⟩ <;>
    simp [create_loan_details, calculate_loan_details, missingFields,
      fieldMissing, intFieldMissing, outOfRangeInput]

/-- C4 (amended): `create_loan_details` does not range-check the supplied
`installments_paid`; but on every loan satisfying `0 ≤ installments_paid`
and "active implies `installments_paid < total_installments`" — which holds
in particular for a loan created with the default `installments_paid = 0`
and positive `total_installments` — a successful `record_payment` preserves
`0 ≤ installments_paid ≤ total_installments` together with that same
condition, because the completion check deactivates the loan at the bound
and further payments are rejected. -/
theorem record_payment_preserves_installments_bound (l : LoanDetails)
    (amt : Option ℚ) (now : DateTime) (l' : LoanDetails) (r : PaymentResult)
    (h0 : 0 ≤ l.installments_paid)
    (hlt : l.is_active = true → l.installments_paid < l.total_installments)
    (h : record_payment l amt now = .ok (l', r)) :
    0 ≤ l'.installments_paid ∧ l'.installments_paid ≤ l'.total_installments ∧
      (l'.is_active = true → l'.installments_paid < l'.total_installments) := by
  rw [record_payment] at h
  split at h
  · simp at h
  · rename_i hactive
    rw [Bool.not_eq_false] at hactive
    rw [Except.ok.injEq] at h
    have hl : l' = (make_payment l amt now).1 := by rw [h]
    subst hl
    have hbound := hlt hactive
    simp only [make_payment]
    refine ⟨by omega, by omega, ?_⟩
    intro hact
    split at hact
    · simp at hact
    · rename_i hcond
      push_neg at hcond
      exact hcond.1

/-- Witness for C4 (amended): a default payment on the example loan
(`installments_paid = 0 < 12 = total_installments`, active) keeps the
count within bounds. -/
theorem record_payment_preserves_installments_bound_witness :
    0 ≤ (make_payment exampleLoan none jan2025).1.installments_paid ∧
      (make_payment exampleLoan none jan2025).1.installments_paid ≤
        (make_payment exampleLoan none jan2025).1.total_installments ∧
      ((make_payment exampleLoan none jan2025).1.is_active = true →
        (make_payment exampleLoan none jan2025).1.installments_paid <
          (make_payment exampleLoan none jan2025).1.total_installments) :=
  record_payment_preserves_installments_bound exampleLoan none jan2025
    (make_payment exampleLoan none jan2025).1
    (make_payment exampleLoan none jan2025).2
    (by norm_num [exampleLoan]) (fun _ => by norm_num [exampleLoan]) rfl

/-! ## Claim C5 -/

/-- Counterexample to C5 as stated: `create_loan_details` applies no
completion check, so a loan created with `total_paid = 500` against
`total_amount = 100` ends up with `amount_remaining = -400` while still
`is_active = true` — a post-operation state with negative remaining amount
on a loan that has not been marked completed. -/
theorem create_negative_remaining_while_active :
    ∃ l : LoanDetails, create_loan_details none overpaidInput jan2025 = .ok l ∧
      l.amount_remaining = some (-400) ∧ l.is_active = true := by
  refine ⟨_, rfl, ?_, ?_⟩ <;>
    · simp [create_loan_details, calculate_loan_details, missingFields,
        fieldMissing, intFieldMissing, overpaidInput]
      try norm_num

/-- `calculate_loan_details` only writes the derived fields
`amount_remaining`, `expected_completion_date` and `next_payment_date`; all
other fields are left as they were. -/
theorem calculate_fields_unchanged (l : LoanDetails) :
    (calculate_loan_details l).total_amount = l.total_amount ∧
    (calculate_loan_details l).monthly_payment = l.monthly_payment ∧
    (calculate_loan_details l).total_paid = l.total_paid ∧
    (calculate_loan_details l).installments_paid = l.installments_paid ∧
    (calculate_loan_details l).total_installments = l.total_installments ∧
    (calculate_loan_details l).is_active = l.is_active ∧
    (calculate_loan_details l).loan_start_date = l.loan_start_date ∧
    (calculate_loan_details l).payment_history = l.payment_history ∧
    (calculate_loan_details l).last_payment_date = l.last_payment_date ∧
    (calculate_loan_details l).interest_rate = l.interest_rate ∧
    (calculate_loan_details l).notes = l.notes := by
  simp only [calculate_loan_details]
  split_ifs <;> simp

/-- When its truthiness guard passes, `calculate_loan_details` sets
`amount_remaining := total_amount − total_paid`. -/
theorem calculate_amount_remaining (l : LoanDetails)
    (hta : l.total_amount ≠ 0) (hmp : l.monthly_payment ≠ 0) :
    (calculate_loan_details l).amount_remaining =
      some (l.total_amount - l.total_paid) := by
  simp only [calculate_loan_details]
  split_ifs <;> simp_all

/-- Applying `calculate_loan_details` twice (constructor + route, as
`create_loan_details` does) leaves `amount_remaining = total_amount −
total_paid` in terms of the final state's own fields. -/
theorem calc_twice_remaining (l : LoanDetails)
    (hta : l.total_amount ≠ 0) (hmp : l.monthly_payment ≠ 0) :
    (calculate_loan_details (calculate_loan_details l)).amount_remaining =
      some ((calculate_loan_details (calculate_loan_details l)).total_amount -
          (calculate_loan_details (calculate_loan_details l)).total_paid) := by
  obtain ⟨ha0, hm0, hp0, -⟩ := calculate_fields_unchanged l
  obtain ⟨ha1, hm1, hp1, -⟩ := calculate_fields_unchanged (calculate_loan_details l)
  rw [ha1, hp1, ha0, hp0]
  rw [calculate_amount_remaining (calculate_loan_details l)
    (by rw [ha0]; exact hta) (by rw [hm0]; exact hmp)]
  rw [ha0, hp0]

/-- C5 (amended): `amount_remaining = total_amount − total_paid` holds
immediately after every successful `create_loan_details` and after every
successful `record_payment`; after `record_payment` a negative
`amount_remaining` forces `is_active = false`, but after
`create_loan_details` (and likewise after a bare `calculate_loan_details`)
no completion check runs, so `amount_remaining` can be negative while the
loan is still active. -/
theorem amount_remaining_invariant (d : LoanInput) (cnow : DateTime)
    (lc : LoanDetails) (l : LoanDetails) (amt : Option ℚ) (pnow : DateTime)
    (l' : LoanDetails) (r : PaymentResult) :
    (create_loan_details none d cnow = .ok lc →
      lc.amount_remaining = some (lc.total_amount - lc.total_paid)) ∧
    (record_payment l amt pnow = .ok (l', r) →
      l'.amount_remaining = some (l'.total_amount - l'.total_paid) ∧
      ∀ q : ℚ, l'.amount_remaining = some q → q < 0 →
        l'.is_active = false) := by
  constructor
  · intro h
    rw [create_loan_details] at h
    simp only [Option.isSome_none, Bool.false_eq_true, if_false] at h
    split at h
    · simp at h
    · rename_i hm
      rw [Except.ok.injEq] at h
      rw [not_not, missingFields_eq_nil] at hm
      obtain ⟨hA, hB, -⟩ := hm
      push_neg at hA hB
      obtain ⟨h1, h2⟩ := hA
      obtain ⟨h3, h4⟩ := hB
      have hta : (d.total_amount.getD 0) ≠ 0 := by
        cases hta' : d.total_amount with
        | none => exact absurd hta' h1
        | some a =>
            simp only [Option.getD_some]
            intro ha
            exact h2 (by rw [hta', ha])
      have hmp : (d.monthly_payment.getD 0) ≠ 0 := by
        cases hmp' : d.monthly_payment with
        | none => exact absurd hmp' h3
        | some a =>
            simp only [Option.getD_some]
            intro ha
            exact h4 (by rw [hmp', ha])
      subst h
      exact calc_twice_remaining _ hta hmp
  · intro h
    rw [record_payment] at h
    split at h
    · simp at h
    · rename_i hactive
      rw [Except.ok.injEq] at h
      have hl : l' = (make_payment l amt pnow).1 := by rw [h]
      subst hl
      refine ⟨rfl, ?_⟩
      intro q hq hneg
      simp only [make_payment, Option.some.injEq] at hq
      subst hq
      simp only [make_payment]
      split
      · rfl
      · rename_i hcond
        exact absurd (Or.inr (le_of_lt hneg)) hcond

/-- Witness for C5 (amended): on the example loan, a default payment of 100
leaves `amount_remaining = total_amount − total_paid` in the stored state. -/
theorem amount_remaining_invariant_witness :
    (make_payment exampleLoan none jan2025).1.amount_remaining =
      some ((make_payment exampleLoan none jan2025).1.total_amount -
        (make_payment exampleLoan none jan2025).1.total_paid) :=
  ((amount_remaining_invariant overpaidInput jan2025 exampleLoan exampleLoan
      none jan2025 (make_payment exampleLoan none jan2025).1
      (make_payment exampleLoan none jan2025).2).2 rfl).1

/-! ## Claim C7 -/

/-- Each single operation never decreases `installments_paid` and never
reactivates an inactive loan. -/
theorem applyOp_monotone (s : SysState) (op : LoanOp) :
    s.loan.installments_paid ≤ (applyOp s op).loan.installments_paid ∧
    (s.loan.is_active = false → (applyOp s op).loan.is_active = false) := by
  cases op with
  | payment amt now =>
      simp only [applyOp]
      cases hrp : record_payment s.loan amt now with
      | error e => simp
      | ok p =>
          rw [record_payment] at hrp
          split at hrp
          · simp at hrp
          · rename_i hactive
            rw [Bool.not_eq_false] at hactive
            rw [Except.ok.injEq] at hrp
            subst hrp
            constructor
            · simp [make_payment]
            · intro hfalse
              rw [hactive] at hfalse
              simp at hfalse
  | recompute =>
      obtain ⟨-, -, -, hip, -, hia, -⟩ := calculate_fields_unchanged s.loan
      exact ⟨le_of_eq (by simp [applyOp, hip]), fun h => by simp [applyOp, hia, h]⟩
  | advanceBill uid bill => exact ⟨le_refl _, fun h => h⟩

/-- C7: across every sequence of payment / recompute / advance-bill
operations, `installments_paid` is non-decreasing and `is_active` never goes
back from false to true — so over any run it transitions at most once, from
true to false. -/
theorem loan_monotone_trace (s : SysState) (ops : List LoanOp) :
    s.loan.installments_paid ≤ (applyOps s ops).loan.installments_paid ∧
    (s.loan.is_active = false → (applyOps s ops).loan.is_active = false) := by
  induction ops generalizing s with
  | nil => exact ⟨le_refl _, fun h => h⟩
  | cons op rest ih =>
      obtain ⟨hstep1, hstep2⟩ := applyOp_monotone s op
      obtain ⟨hrest1, hrest2⟩ := ih (applyOp s op)
      exact ⟨le_trans hstep1 hrest1, fun h => hrest2 (hstep2 h)⟩

/-- Witness for C7: a completed loan stays inactive over a concrete run of
one recompute and one default payment. -/
theorem loan_monotone_trace_witness :
    (applyOps ⟨completedLoan, []⟩
        [LoanOp.recompute, LoanOp.payment none jan2025]).loan.is_active = false :=
  (loan_monotone_trace ⟨completedLoan, []⟩
    [LoanOp.recompute, LoanOp.payment none jan2025]).2 rfl

/-! ## Claim C8 -/

/-- Two loan states with equal fields are equal. -/
theorem LoanDetails.ext_fields (x y : LoanDetails)
    (h1 : x.total_amount = y.total_amount)
    (h2 : x.monthly_payment = y.monthly_payment)
    (h3 : x.interest_rate = y.interest_rate)
    (h4 : x.total_installments = y.total_installments)
    (h5 : x.installments_paid = y.installments_paid)
    (h6 : x.total_paid = y.total_paid)
    (h7 : x.amount_remaining = y.amount_remaining)
    (h8 : x.loan_start_date = y.loan_start_date)
    (h9 : x.expected_completion_date = y.expected_completion_date)
    (h10 : x.last_payment_date = y.last_payment_date)
    (h11 : x.next_payment_date = y.next_payment_date)
    (h12 : x.payment_history = y.payment_history)
    (h13 : x.is_active = y.is_active)
    (h14 : x.notes = y.notes) : x = y := by
  cases x; cases y; simp_all

/-- When its truthiness guard passes, `calculate_loan_details` fills
`expected_completion_date` only if it was unset (and `total_installments`
is truthy). -/
theorem calculate_expected (l : LoanDetails)
    (hta : l.total_amount ≠ 0) (hmp : l.monthly_payment ≠ 0) :
    (calculate_loan_details l).expected_completion_date =
      if l.expected_completion_date = none ∧ l.total_installments ≠ 0 then
        some (addMonths l.loan_start_date l.total_installments)
      else l.expected_completion_date := by
  simp only [calculate_loan_details]
  split_ifs <;> simp_all

/-- When its truthiness guard passes, `calculate_loan_details` sets
`next_payment_date := loan_start_date + (installments_paid + 1)` months. -/
theorem calculate_next (l : LoanDetails)
    (hta : l.total_amount ≠ 0) (hmp : l.monthly_payment ≠ 0) :
    (calculate_loan_details l).next_payment_date =
      some (addMonths l.loan_start_date (l.installments_paid + 1)) := by
  simp only [calculate_loan_details]
  split_ifs <;> simp_all

/-- C8: `recompute` (`calculate_loan_details`) is a pure function of the
loan's fields (it is a Lean function of the state alone) and idempotent;
it re-derives `amount_remaining` and `next_payment_date` (under its
truthiness guard, which the data-model constraints `total_amount > 0`,
`monthly_payment > 0` imply), but fills `expected_completion_date` only
when unset, and neither recompute nor `make_payment` ever changes an
already-set `expected_completion_date`. -/
theorem recompute_idempotent (l : LoanDetails) :
    calculate_loan_details (calculate_loan_details l) =
      calculate_loan_details l ∧
    (∀ e : DateTime, l.expected_completion_date = some e →
      (calculate_loan_details l).expected_completion_date = some e) ∧
    (∀ (amt : Option ℚ) (now : DateTime),
      (make_payment l amt now).1.expected_completion_date =
        l.expected_completion_date) ∧
    (l.total_amount ≠ 0 → l.monthly_payment ≠ 0 →
      (calculate_loan_details l).amount_remaining =
        some (l.total_amount - l.total_paid) ∧
      (calculate_loan_details l).next_payment_date =
        some (addMonths l.loan_start_date (l.installments_paid + 1))) := by
  by_cases hg : l.total_amount ≠ 0 ∧ l.monthly_payment ≠ 0
  · obtain ⟨hta, hmp⟩ := hg
    obtain ⟨ua, um, up, ui, uti, uact, ustart, uhist, ulast, uir, unotes⟩ :=
      calculate_fields_unchanged l
    have hta' : (calculate_loan_details l).total_amount ≠ 0 := by
      rw [ua]; exact hta
    have hmp' : (calculate_loan_details l).monthly_payment ≠ 0 := by
      rw [um]; exact hmp
    obtain ⟨va, vm, vp, vi, vti, vact, vstart, vhist, vlast, vir, vnotes⟩ :=
      calculate_fields_unchanged (calculate_loan_details l)
    refine ⟨?_, ?_, fun amt now => rfl,
      fun _ _ => ⟨calculate_amount_remaining l hta hmp,
        calculate_next l hta hmp⟩⟩
    · refine LoanDetails.ext_fields _ _ va vm vir vti vi vp ?_ vstart ?_
        vlast ?_ vhist vact vnotes
      · rw [calculate_amount_remaining _ hta' hmp',
          calculate_amount_remaining l hta hmp, ua, up]
      · rw [calculate_expected _ hta' hmp', uti, ustart,
          calculate_expected l hta hmp]
        by_cases hc : l.expected_completion_date = none ∧
            l.total_installments ≠ 0
        · rw [if_pos hc, if_neg (by simp)]
        · rw [if_neg hc, if_neg hc]
      · rw [calculate_next _ hta' hmp', ustart, ui,
          calculate_next l hta hmp]
    · intro e he
      rw [calculate_expected l hta hmp, if_neg (by simp [he])]
      exact he
  · have h0 : calculate_loan_details l = l := by
      unfold calculate_loan_details
      rw [if_neg hg]
    exact ⟨by rw [h0, h0], fun e he => by rw [h0]; exact he,
      fun amt now => rfl, fun hta hmp => absurd ⟨hta, hmp⟩ hg⟩

/-- Witness for C8: the example loan's already-set
`expected_completion_date` (2026-01-01) survives a recompute. -/
theorem recompute_idempotent_witness :
    (calculate_loan_details exampleLoan).expected_completion_date =
      some ⟨2026, 1, 1⟩ :=
  (recompute_idempotent exampleLoan).2.1 ⟨2026, 1, 1⟩ rfl



/-! ## Claim C9 -/

/-- If a matching successor bill is already in the store, the
successor-bill block leaves the store unchanged and creates nothing. -/
theorem advance_found_none (store : List Bill) (uid : String) (bill : Bill)
    (l : LoanDetails) (b : Bill)
    (hfo : find_next_bill store uid bill.name (addMonths bill.due_date 1) =
      some b) :
    advance_recurring_bill store uid bill l = (store, none) := by
  rw [advance_recurring_bill]
  split_ifs with hg
  · simp only [hfo]
  · rfl

/-- C9: the successor-bill block is idempotent — run a second time on the
store produced by the first run (same user, bill and due date) it creates
nothing and returns `none`; it creates a successor only when the loan is
still active and the bill is monthly; a created successor carries
`amount = loan.monthly_payment` and the bill's category, frequency and
notification preferences; and it returns `none` when a matching successor
already exists or the loan is inactive. -/
theorem advance_recurring_bill_props (store : List Bill) (uid : String)
    (bill : Bill) (l : LoanDetails) :
    advance_recurring_bill (advance_recurring_bill store uid bill l).1
        uid bill l =
      ((advance_recurring_bill store uid bill l).1, none) ∧
    (¬(l.is_active = true ∧ bill.frequency = "monthly") →
      advance_recurring_bill store uid bill l = (store, none)) ∧
    (∀ nb : Bill, (advance_recurring_bill store uid bill l).2 = some nb →
      nb.amount = l.monthly_payment ∧ nb.category = bill.category ∧
      nb.frequency = bill.frequency ∧
      nb.enable_whatsapp = bill.enable_whatsapp ∧
      nb.enable_call = bill.enable_call ∧
      nb.enable_sms = bill.enable_sms ∧
      nb.enable_local_notification = bill.enable_local_notification) ∧
    (find_next_bill store uid bill.name (addMonths bill.due_date 1) ≠ none →
      (advance_recurring_bill store uid bill l).2 = none) ∧
    (l.is_active = false →
      (advance_recurring_bill store uid bill l).2 = none) := by
  by_cases hg : l.is_active = true ∧ bill.frequency = "monthly"
  · have hgact := hg.1
    cases hf : find_next_bill store uid bill.name (addMonths bill.due_date 1) with
    | some b =>
        have hnone := advance_found_none store uid bill l b hf
        refine ⟨?_, fun hng => absurd hg hng, fun nb hnb => ?_,
          fun _ => by rw [hnone], fun hinact => by rw [hnone]⟩
        · rw [hnone]
          exact hnone
        · rw [hnone] at hnb
          simp at hnb
    | none =>
        have hcreated : advance_recurring_bill store uid bill l =
            (store ++ [make_next_bill uid bill l (addMonths bill.due_date 1)],
             some (make_next_bill uid bill l (addMonths bill.due_date 1))) := by
          simp only [advance_recurring_bill, if_pos hg, hf]
        have hfound : find_next_bill
            (store ++ [make_next_bill uid bill l (addMonths bill.due_date 1)])
            uid bill.name (addMonths bill.due_date 1) =
            some (make_next_bill uid bill l (addMonths bill.due_date 1)) := by
          rw [find_next_bill, List.find?_append]
          rw [find_next_bill] at hf
          rw [hf]
          simp [make_next_bill, List.find?]
        refine ⟨?_, fun hng => absurd hg hng, fun nb hnb => ?_,
          fun hne => absurd rfl hne, fun hinact => ?_⟩
        · rw [hcreated]
          exact advance_found_none _ uid bill l _ hfound
        · rw [hcreated] at hnb
          simp only [Option.some.injEq] at hnb
          subst hnb
          exact ⟨rfl, rfl, rfl, rfl, rfl, rfl, rfl⟩
        · rw [hgact] at hinact
          simp at hinact
  · have hnone : advance_recurring_bill store uid bill l = (store, none) := by
      rw [advance_recurring_bill, if_neg hg]
    refine ⟨?_, fun _ => hnone, fun nb hnb => ?_,
      fun _ => by rw [hnone], fun _ => by rw [hnone]⟩
    · rw [hnone]
      exact hnone
    · rw [hnone] at hnb
      simp at hnb

/-- Witness for C9: with an empty store, the active example loan and the
monthly example bill, running the successor block twice creates exactly one
bill — the second run returns the first run's store unchanged with `none`. -/
theorem advance_recurring_bill_props_witness :
    advance_recurring_bill
        (advance_recurring_bill [] "u1" exampleBill exampleLoan).1
        "u1" exampleBill exampleLoan =
      ((advance_recurring_bill [] "u1" exampleBill exampleLoan).1, none) :=
  (advance_recurring_bill_props [] "u1" exampleBill exampleLoan).1
